import Mathlib

/-!
# Verification of the ocelo-rs sampling-and-distribution pipeline

Shallow embedding of the core of the `ocelo-rs` terminal dashboard:
the metric snapshot types (`src/core/src/model/`), the platform metric
source operations of `SystemInfoPoller` (`src/core/src/lib.rs`), the
menu/tab state machine and view transitions (`src/tui/src/component/menu.rs`,
`src/tui/src/view.rs`), and the CPU/memory detail panel update
(`src/tui/src/component/cpu_details.rs`).

Modelling conventions:
* Rust `u64`/`u32`/`usize` fields are `Nat`; where wrap-around of an
  operation matters it is written explicitly with `% 2 ^ 64`.
* Rust `f32`/`f64` fields are represented by `ℚ`; none of the theorems
  below depends on IEEE-754 rounding (claims that do are treated
  separately).
* Operations that can panic in Rust (integer division by zero) return
  `Option`, with `none` standing for the panic.
* The `sysinfo` library is refresh-then-read: a refresh mutates a cache,
  reads are pure accessors on the cache.  Poller operations are therefore
  embedded as pure functions of the post-refresh cache state.
-/

namespace Ocelo

/-! ## Metric snapshot types (`src/core/src/model/`) -/

/-- `MemoryInfo` from `src/core/src/model/mod.rs` (six `u64` fields). -/
structure MemoryInfo where
  total : Nat
  used : Nat
  available : Nat
  swap_total : Nat
  swap_used : Nat
  swap_available : Nat
deriving DecidableEq

/-- `CpuInfo` from `src/core/src/model/cpu.rs`:
name, frequency (`u64` MHz), core_count (`usize`), usage (`f32`),
temperature (`Option<f32>`). -/
structure CpuInfo where
  name : String
  frequency : Nat
  core_count : Nat
  usage : ℚ
  temperature : Option ℚ
deriving DecidableEq

/-- `CpuCore` from `src/core/src/model/cpu.rs` (`u64`, `u64`, `u32`). -/
structure CpuCore where
  usage : Nat
  frequency : Nat
  temperature : Nat
deriving DecidableEq

/-- `CpuMemoryUpdate` from `src/core/src/model/cpu.rs`. -/
structure CpuMemoryUpdate where
  usage : ℚ
  frequency : Nat
  temperature : Nat
  cores : List CpuCore
  memory_stats : MemoryInfo
deriving DecidableEq

/-- `Storage` from `src/core/src/model/disk.rs`. -/
structure Storage where
  total_space : Nat
  used_space : Nat
  available_space : Nat
  file_system : String
  mount : String
  bytes_read : Nat
  bytes_written : Nat
deriving DecidableEq

/-- `DiskInfo` from `src/core/src/model/disk.rs`. -/
structure DiskInfo where
  disks : List Storage
deriving DecidableEq

/-- `SystemInfo` from `src/core/src/model/system.rs`
(load averages are `f64`). -/
structure SystemInfo where
  host_name : String
  kernel_version : String
  uptime : Nat
  load_one_minute : ℚ
  load_five_minutes : ℚ
  load_fifteen_minutes : ℚ
deriving DecidableEq

/-- `SystemOverviewInfo` exactly as declared in
`src/core/src/model/mod.rs` lines 27-33: it has the four fields
`cpu`, `overview`, `memory`, `disks` and no network field
(`mod.rs` also declares no `network` module). -/
structure SystemOverviewInfo where
  cpu : CpuInfo
  overview : SystemInfo
  memory : MemoryInfo
  disks : DiskInfo
deriving DecidableEq

/-! ## The sysinfo cache abstraction (read accessors used by the poller) -/

/-- One entry of `sysinfo::System::cpus()`: the read accessors the poller
uses are `brand()`, `frequency()` (`u64`) and `cpu_usage()` (`f32`). -/
structure Cpu where
  brand : String
  frequency : Nat
  cpu_usage : ℚ
deriving DecidableEq

/-- The slice of the `sysinfo` cache read by the poller operations:
the cpu list, the aggregate `global_cpu_usage()` (`f32`) and the
memory accessors (all `u64`). -/
structure System where
  cpus : List Cpu
  global_cpu_usage : ℚ
  total_memory : Nat
  used_memory : Nat
  available_memory : Nat
  total_swap : Nat
  used_swap : Nat
  free_swap : Nat
deriving DecidableEq

/-! ## Poller operations (`src/core/src/lib.rs`) -/

/-- `SystemInfoPoller::get_cpu_info` (lib.rs lines 75-102), as a function
of the post-refresh cache: name is the brand of the first cpu or
"Unknown"; average frequency is the truncating integer mean of the
per-core frequencies, guarded to 0 when the core count is 0; usage is
the library's aggregate `global_cpu_usage()`. -/
def SystemInfoPoller.get_cpu_info (sys : System) : CpuInfo :=
  let cpus := sys.cpus
  let name :=
    match cpus.head? with
    | some cpu => cpu.brand
    | none => "Unknown"
  let core_count := cpus.length
  let average_frequency :=
    if 0 < core_count then (cpus.map (fun c => c.frequency)).sum / core_count
    else 0
  { name := name
    frequency := average_frequency
    core_count := core_count
    temperature := none
    usage := sys.global_cpu_usage }

/-- `SystemInfoPoller::get_memory_info` (lib.rs lines 158-176). -/
def SystemInfoPoller.get_memory_info (sys : System) : MemoryInfo :=
  { total := sys.total_memory
    used := sys.used_memory
    available := sys.available_memory
    swap_total := sys.total_swap
    swap_used := sys.used_swap
    swap_available := sys.free_swap }

/-- `SystemInfoPoller::get_cpu_amd_memory_info` (lib.rs lines 104-139).
The Rust code computes `avg_freq = sum_freq / self.inner.cpus().len()`
with no guard: a `usize` division that panics when the cpu list is
empty, hence the `Option` (`none` = panic).  (The `Components` iterator
on lines 119-121 is never consumed, so it has no effect.)  Per-core
usage is `cpu.cpu_usage() as u64`: truncation toward zero, saturating
at 0, which for `q : ℚ` is `(Int.floor q).toNat`. -/
def SystemInfoPoller.get_cpu_amd_memory_info (sys : System) : Option CpuMemoryUpdate :=
  let sum_freq := (sys.cpus.map (fun core => core.frequency)).sum
  if sys.cpus.length = 0 then none
  else
    some
      { usage := sys.global_cpu_usage
        frequency := sum_freq / sys.cpus.length
        temperature := 0
        cores :=
          sys.cpus.map (fun cpu =>
            { frequency := cpu.frequency
              temperature := 0
              usage := (Int.floor cpu.cpu_usage).toNat })
        memory_stats := SystemInfoPoller.get_memory_info sys }

/-! ## Menu / tab state machine (`src/tui/src/component/menu.rs`) -/

/-- `MenuState` (menu.rs lines 102-111); the default variant is
`OverView`. -/
inductive MenuState where
  | OverView
  | CpuMemoryDetails
  | ProcessDetails
  | DiskDetails
  | NetworkDetails
deriving DecidableEq

/-- `MenuState::index` (menu.rs lines 114-122). -/
def MenuState.index : MenuState → Nat
  | .OverView => 0
  | .CpuMemoryDetails => 1
  | .ProcessDetails => 2
  | .DiskDetails => 3
  | .NetworkDetails => 4

/-- `MenuState::next` (menu.rs lines 124-132), `&mut self` embedded as
state passing. -/
def MenuState.next : MenuState → MenuState
  | .OverView => .CpuMemoryDetails
  | .CpuMemoryDetails => .ProcessDetails
  | .ProcessDetails => .DiskDetails
  | .DiskDetails => .NetworkDetails
  | .NetworkDetails => .OverView

/-- `MenuState::previous` (menu.rs lines 134-142), `&mut self` embedded
as state passing; the source's match arms are identical to those of
`next`. -/
def MenuState.previous : MenuState → MenuState
  | .OverView => .CpuMemoryDetails
  | .CpuMemoryDetails => .ProcessDetails
  | .ProcessDetails => .DiskDetails
  | .DiskDetails => .NetworkDetails
  | .NetworkDetails => .OverView

/-! ## Polling context and view transitions (`src/core/src/lib.rs`,
`src/tui/src/view.rs`) -/

/-- `SystemInfoPollingContext` (lib.rs lines 13-21); default is
`Overview`. -/
inductive SystemInfoPollingContext where
  | Overview
  | CpuAndMemory
  | Processes
  | Disks
  | Network
deriving DecidableEq

/-- The state relevant to the tab/polling-context coupling: the view's
`current_tab` and the `polling_context` of the shared
`SystemInfoPoller`. -/
structure ViewState where
  current_tab : MenuState
  polling_context : SystemInfoPollingContext
deriving DecidableEq

/-- Effect of `View::switch_view` (view.rs lines 218-260) on the shared
poller's polling context: the `CpuMemoryDetails` arm calls
`set_polling_context(CpuAndMemory)`, the `OverView` arm calls
`set_polling_context(Overview)`, and the `DiskDetails`,
`NetworkDetails` and `ProcessDetails` arms are empty, leaving the
context unchanged.  (Component mounting/activation and the menu
attribute update are UI-framework effects outside this embedding.) -/
def View.switch_view (tab : MenuState) (ctx : SystemInfoPollingContext) :
    SystemInfoPollingContext :=
  match tab with
  | .CpuMemoryDetails => .CpuAndMemory
  | .DiskDetails => ctx
  | .NetworkDetails => ctx
  | .OverView => .Overview
  | .ProcessDetails => ctx

/-- The `Message::ChangeNextMenu` handler (view.rs lines 267-270):
`self.current_tab.next()` then `self.switch_view(self.current_tab)`. -/
def View.changeNextMenu (v : ViewState) : ViewState :=
  let tab := v.current_tab.next
  { current_tab := tab
    polling_context := View.switch_view tab v.polling_context }

/-- The `Message::ChangePreviousMenu` handler (view.rs lines 271-274):
`self.current_tab.previous()` then `self.switch_view(self.current_tab)`. -/
def View.changePreviousMenu (v : ViewState) : ViewState :=
  let tab := v.current_tab.previous
  { current_tab := tab
    polling_context := View.switch_view tab v.polling_context }

/-- Initial state from `View::default` (view.rs lines 110-119) and
`SystemInfoPoller::default` (lib.rs lines 59-66): tab `OverView`,
context `Overview`. -/
def View.initialState : ViewState :=
  { current_tab := MenuState.OverView
    polling_context := SystemInfoPollingContext.Overview }

/-- The 1:1 tab-to-context correspondence asserted by the specification
(spec 4.3): each menu state's matching polling-context variant.  This
definition transcribes the spec claim, to be compared against the code
transitions above. -/
def specMatchingContext : MenuState → SystemInfoPollingContext
  | .OverView => .Overview
  | .CpuMemoryDetails => .CpuAndMemory
  | .ProcessDetails => .Processes
  | .DiskDetails => .Disks
  | .NetworkDetails => .Network

/-! ## Disk pipeline (`src/core/src/lib.rs`, `src/core/src/model/disk.rs`) -/

/-- One entry of `sysinfo::Disks`: the read accessors used by
`From<&Disk> for Storage` (all spaces and io counters are `u64`). -/
structure Disk where
  total_space : Nat
  available_space : Nat
  file_system : String
  mount_point : String
  read_bytes : Nat
  written_bytes : Nat
deriving DecidableEq

/-- `impl From<&Disk> for Storage` (disk.rs lines 16-28).  The source
computes `used_space: disk.total_space() - disk.available_space()`, a
`u64` subtraction: written here with its wrap-around modulo `2 ^ 64`
(in a debug build the underflowing case panics instead; the two agree
whenever `available_space ≤ total_space`). -/
def Storage.fromDisk (disk : Disk) : Storage :=
  { total_space := disk.total_space
    used_space := (disk.total_space + 2 ^ 64 - disk.available_space) % 2 ^ 64
    available_space := disk.available_space
    file_system := disk.file_system
    mount := disk.mount_point
    bytes_read := disk.read_bytes
    bytes_written := disk.written_bytes }

/-- The sort key relation of `disks.sort_by_key(|d| d.used_space)`. -/
def storageKeyLE (a b : Storage) : Prop := a.used_space ≤ b.used_space

instance : DecidableRel storageKeyLE :=
  fun a b => inferInstanceAs (Decidable (a.used_space ≤ b.used_space))

instance : IsTotal Storage storageKeyLE :=
  ⟨fun a b => Nat.le_total a.used_space b.used_space⟩

instance : IsTrans Storage storageKeyLE :=
  ⟨fun _ _ _ hab hbc => Nat.le_trans hab hbc⟩

/-- `SystemInfoPoller::get_disk_info` (lib.rs lines 141-156) as a
function of the refreshed disk list: map each disk through
`Storage::from`, stable-sort ascending by `used_space`
(`sort_by_key` is a stable sort; `List.insertionSort` is the stable
sort on lists), then `reverse`. -/
def SystemInfoPoller.get_disk_info (disks : List Disk) : DiskInfo :=
  let storages := disks.map Storage.fromDisk
  { disks := (List.insertionSort storageKeyLE storages).reverse }

/-! ## CPU/memory detail panel (`src/tui/src/component/cpu_details.rs`) -/

/-- The data fields of the `CpuMemoryDetails` component (cpu_details.rs
lines 19-46), without the UI-framework `properties` bag.  Time-series
points are `(f64, f64)` pairs, represented as `ℚ × ℚ`. -/
structure CpuMemoryDetails where
  cpu_update : CpuMemoryUpdate
  core_count : Nat
  cpu_name : String
  cpu_usage : List (ℚ × ℚ)
  cpu_core_stats : List CpuCore
  max_frequency : Nat
  memory_usage : List (ℚ × ℚ)
  swap_usage : List (ℚ × ℚ)
deriving DecidableEq

/-- The component state produced by `CpuMemoryDetails::default()`
(derived `Default`): all numbers 0, all lists and strings empty. -/
def CpuMemoryDetails.empty : CpuMemoryDetails :=
  { cpu_update :=
      { usage := 0, frequency := 0, temperature := 0, cores := []
        memory_stats :=
          { total := 0, used := 0, available := 0
            swap_total := 0, swap_used := 0, swap_available := 0 } }
    core_count := 0
    cpu_name := ""
    cpu_usage := []
    cpu_core_stats := []
    max_frequency := 0
    memory_usage := []
    swap_usage := [] }

/-- `CpuMemoryDetails::process_update` (cpu_details.rs lines 114-139),
`&mut self` embedded as state passing.  The physical-memory sample is
guarded (`if update.memory_stats.total > 0`) and computed in `f64`
(exact here over `ℚ`).  The swap sample is
`(update.memory_stats.swap_used / update.memory_stats.total) as f64 * 100.0`:
a `u64` integer division whose divisor is the physical `total`, not
`swap_total`; when the swap branch is taken (`swap_total > 0`) and
`total = 0` this division panics, hence the `Option` (`none` = panic;
the panic occurs after the `cpu_usage` push but aborts the process, so
no later state is observable). -/
def CpuMemoryDetails.process_update (s : CpuMemoryDetails)
    (update : CpuMemoryUpdate) : Option CpuMemoryDetails :=
  let last_index0 : ℚ := s.cpu_usage.length
  let cpu_usage2 := s.cpu_usage ++ [(last_index0, update.usage)]
  let memory_used_percent : ℚ :=
    if 0 < update.memory_stats.total then
      (update.memory_stats.used : ℚ) / (update.memory_stats.total : ℚ) * 100
    else 0
  if 0 < update.memory_stats.swap_total ∧ update.memory_stats.total = 0 then
    none
  else
    let swap_used_percent : ℚ :=
      if 0 < update.memory_stats.swap_total then
        ((update.memory_stats.swap_used / update.memory_stats.total : ℕ) : ℚ) * 100
      else 0
    let last_index : ℚ := s.swap_usage.length
    some
      { s with
        cpu_usage := cpu_usage2
        memory_usage := s.memory_usage ++ [(last_index, memory_used_percent)]
        swap_usage := s.swap_usage ++ [(last_index, swap_used_percent)]
        max_frequency :=
          if s.max_frequency < update.frequency then update.frequency
          else s.max_frequency
        cpu_update := update }

/-! ## Background poller loop (`src/tui/src/view.rs` lines 93-108)

The loop body on the lock-success path, transcribed event by event in
source order.  The `MutexGuard` returned by `poller_clone.lock()` is
bound by the pattern of the `Ok(mut poller)` match arm, so it lives to
the end of that arm: it is dropped after `tx.send(update)` and before
`thread::sleep(Duration::from_secs(3))`. -/

/-- The primitive events of one poller-loop iteration. -/
inductive PollerEvent where
  | lockAcquire
  | readContext
  | refresh
  | channelSend
  | lockRelease
  | sleep
deriving DecidableEq

/-- One iteration of the poller loop body (lock-success path), in
source order: acquire the lock (`poller_clone.lock()` returning `Ok`),
read the polling context (`poller.polling_context()`), perform the
refresh (`SystemInfoUpdate::from((&ctx, &mut *poller))`), send on the
channel (`tx.send(update)`), drop the guard at the end of the `Ok` arm,
then sleep. -/
def poller_loop_body : List PollerEvent :=
  [PollerEvent.lockAcquire, PollerEvent.readContext, PollerEvent.refresh,
   PollerEvent.channelSend, PollerEvent.lockRelease, PollerEvent.sleep]

/-- Whether the lock is held when the first occurrence of `target` in
the trace is reached, starting from lock state `held`. -/
def lockHeldAt : List PollerEvent → Bool → PollerEvent → Bool
  | [], held, _ => held
  | e :: rest, held, target =>
    if e = target then held
    else
      lockHeldAt rest
        (if e = PollerEvent.lockAcquire then true
         else if e = PollerEvent.lockRelease then false
         else held)
        target

/-! ## Concrete inputs used by witnesses and counterexamples -/

/-- A sysinfo cache whose cpu list is empty (`cpus()` returns an empty
slice). -/
def zeroCpuSystem : System :=
  { cpus := []
    global_cpu_usage := 0
    total_memory := 0
    used_memory := 0
    available_memory := 0
    total_swap := 0
    used_swap := 0
    free_swap := 0 }

/-- The metrics source of end-to-end scenario A: 4 cores with
frequencies [2000, 2200, 1800, 2400] MHz and usages [10, 20, 30, 40]%. -/
def exampleCpuSystem : System :=
  { cpus :=
      [{ brand := "TestCpu", frequency := 2000, cpu_usage := 10 },
       { brand := "TestCpu", frequency := 2200, cpu_usage := 20 },
       { brand := "TestCpu", frequency := 1800, cpu_usage := 30 },
       { brand := "TestCpu", frequency := 2400, cpu_usage := 40 }]
    global_cpu_usage := 25
    total_memory := 0
    used_memory := 0
    available_memory := 0
    total_swap := 0
    used_swap := 0
    free_swap := 0 }

/-- Two disks with used spaces 60 and 40 bytes. -/
def sampleDisks : List Disk :=
  [{ total_space := 100, available_space := 40, file_system := "ext4",
     mount_point := "/", read_bytes := 0, written_bytes := 0 },
   { total_space := 50, available_space := 10, file_system := "vfat",
     mount_point := "/boot", read_bytes := 0, written_bytes := 0 }]

/-- An update with `swap_total > 0` and physical `total = 0`: the swap
sample's divisor is 0. -/
def updDivZero : CpuMemoryUpdate :=
  { usage := 0, frequency := 0, temperature := 0, cores := []
    memory_stats :=
      { total := 0, used := 0, available := 0
        swap_total := 1, swap_used := 1, swap_available := 0 } }

/-- An update with `swap_total > 0` and physical `total = 4`,
`swap_used = 9`: the swap sample divides 9 by 4, not by `swap_total`. -/
def updSwapQuot : CpuMemoryUpdate :=
  { usage := 0, frequency := 0, temperature := 0, cores := []
    memory_stats :=
      { total := 4, used := 1, available := 3
        swap_total := 8, swap_used := 9, swap_available := 0 } }

/-- An update with both totals 0: the guarded branches produce 0. -/
def updZeroTotals : CpuMemoryUpdate :=
  { usage := 0, frequency := 0, temperature := 0, cores := []
    memory_stats :=
      { total := 0, used := 0, available := 0
        swap_total := 0, swap_used := 0, swap_available := 0 } }

/-! ## Claim theorems -/

/-- C1 (counterexample): starting from the initial view state and
advancing the tab twice (Overview to CpuMemoryDetails to
ProcessDetails), the polling context after the second transition is
still `CpuAndMemory`, not the `Processes` variant the claim requires:
the `ProcessDetails` arm of `switch_view` does not set the context. -/
theorem switch_view_misses_processes_context :
    (View.changeNextMenu (View.changeNextMenu View.initialState)).current_tab =
      MenuState.ProcessDetails ∧
    (View.changeNextMenu (View.changeNextMenu View.initialState)).polling_context =
      SystemInfoPollingContext.CpuAndMemory ∧
    (View.changeNextMenu (View.changeNextMenu View.initialState)).polling_context ≠
      specMatchingContext
        (View.changeNextMenu (View.changeNextMenu View.initialState)).current_tab := by
  decide

/-- C1 (amended): for every `next()` or `previous()` transition followed
by `switch_view`, if the new tab is Overview or CpuMemoryDetails the
polling context is set to the matching variant; if the new tab is
ProcessDetails, DiskDetails or NetworkDetails the polling context is
left unchanged. -/
theorem switch_view_context_coverage (v : ViewState) :
    ((View.changeNextMenu v).current_tab = MenuState.OverView ∨
        (View.changeNextMenu v).current_tab = MenuState.CpuMemoryDetails →
      (View.changeNextMenu v).polling_context =
        specMatchingContext (View.changeNextMenu v).current_tab) ∧
    ((View.changeNextMenu v).current_tab = MenuState.ProcessDetails ∨
        (View.changeNextMenu v).current_tab = MenuState.DiskDetails ∨
        (View.changeNextMenu v).current_tab = MenuState.NetworkDetails →
      (View.changeNextMenu v).polling_context = v.polling_context) ∧
    ((View.changePreviousMenu v).current_tab = MenuState.OverView ∨
        (View.changePreviousMenu v).current_tab = MenuState.CpuMemoryDetails →
      (View.changePreviousMenu v).polling_context =
        specMatchingContext (View.changePreviousMenu v).current_tab) ∧
    ((View.changePreviousMenu v).current_tab = MenuState.ProcessDetails ∨
        (View.changePreviousMenu v).current_tab = MenuState.DiskDetails ∨
        (View.changePreviousMenu v).current_tab = MenuState.NetworkDetails →
      (View.changePreviousMenu v).polling_context = v.polling_context) := by
  obtain ⟨t, c⟩ := v
  cases t <;> cases c <;> decide

/-- C1 (witness): the amended theorem applied at the initial state
(transition to CpuMemoryDetails sets the matching context) and at the
state with tab CpuMemoryDetails and context CpuAndMemory (transition to
ProcessDetails leaves the context unchanged). -/
theorem switch_view_context_coverage_witness :
    (View.changeNextMenu View.initialState).polling_context =
      specMatchingContext (View.changeNextMenu View.initialState).current_tab ∧
    (View.changeNextMenu
        { current_tab := MenuState.CpuMemoryDetails
          polling_context := SystemInfoPollingContext.CpuAndMemory }).polling_context =
      SystemInfoPollingContext.CpuAndMemory :=
  ⟨(switch_view_context_coverage View.initialState).1 (Or.inr rfl),
   (switch_view_context_coverage
      { current_tab := MenuState.CpuMemoryDetails
        polling_context := SystemInfoPollingContext.CpuAndMemory }).2.1 (Or.inl rfl)⟩

/-- C2: `SystemOverviewInfo` as declared in `src/core/src/model/mod.rs`
consists of exactly the four components cpu, overview, memory and
disks: every value is the tuple of those four fields, so the declared
snapshot type carries no network category (the `network:` initializer
in `get_system_overview`, lib.rs line 205, has no corresponding
field). -/
theorem systemOverviewInfo_four_components (s : SystemOverviewInfo) :
    s = SystemOverviewInfo.mk s.cpu s.overview s.memory s.disks := rfl

/-- C3: on a cache reporting zero cpus, `get_cpu_info` returns
frequency 0 (its core-count guard), but `get_cpu_amd_memory_info`
reaches the unguarded `sum_freq / cpus.len()` division by zero and
panics (modelled as `none`) instead of returning frequency 0. -/
theorem zero_core_count_divide_by_zero :
    (SystemInfoPoller.get_cpu_info zeroCpuSystem).frequency = 0 ∧
    (SystemInfoPoller.get_cpu_info zeroCpuSystem).core_count = 0 ∧
    SystemInfoPoller.get_cpu_amd_memory_info zeroCpuSystem = none :=
  ⟨rfl, rfl, rfl⟩

/-- C4 (counterexample): in the poller loop body the lock is held at
the moment of the channel send: the `MutexGuard` is dropped only at the
end of the `Ok` match arm, after `tx.send(update)`. -/
theorem poller_send_holds_lock :
    lockHeldAt poller_loop_body false PollerEvent.channelSend = true := by
  decide

/-- C4 (amended): in the poller loop body the lock is held while
reading the polling context, during the refresh call and at the channel
send, and it is released before the sleep. -/
theorem poller_lock_scope :
    lockHeldAt poller_loop_body false PollerEvent.readContext = true ∧
    lockHeldAt poller_loop_body false PollerEvent.refresh = true ∧
    lockHeldAt poller_loop_body false PollerEvent.channelSend = true ∧
    lockHeldAt poller_loop_body false PollerEvent.sleep = false := by
  decide

/-- C5: `get_cpu_info` reports the truncating integer mean of the
per-core frequencies whenever the core count is positive, takes the
usage field from the library's aggregate global usage, reports the core
count as the cpu-list length; in particular on the 4-core source with
frequencies [2000, 2200, 1800, 2400] it yields frequency 2100 and
core_count 4. -/
theorem get_cpu_info_mean_and_global_usage (sys : System)
    (h : 0 < sys.cpus.length) :
    (SystemInfoPoller.get_cpu_info sys).frequency =
      (sys.cpus.map (fun c => c.frequency)).sum / sys.cpus.length ∧
    (SystemInfoPoller.get_cpu_info sys).usage = sys.global_cpu_usage ∧
    (SystemInfoPoller.get_cpu_info sys).core_count = sys.cpus.length ∧
    (SystemInfoPoller.get_cpu_info exampleCpuSystem).frequency = 2100 ∧
    (SystemInfoPoller.get_cpu_info exampleCpuSystem).core_count = 4 := by
  refine ⟨?_, rfl, rfl, by decide, rfl⟩
  simp [SystemInfoPoller.get_cpu_info, h]

/-- C5 (witness): the theorem applied at the scenario-A source. -/
theorem get_cpu_info_mean_and_global_usage_witness :
    0 < exampleCpuSystem.cpus.length ∧
    ((SystemInfoPoller.get_cpu_info exampleCpuSystem).frequency =
       (exampleCpuSystem.cpus.map (fun c => c.frequency)).sum /
         exampleCpuSystem.cpus.length ∧
     (SystemInfoPoller.get_cpu_info exampleCpuSystem).usage =
       exampleCpuSystem.global_cpu_usage ∧
     (SystemInfoPoller.get_cpu_info exampleCpuSystem).core_count =
       exampleCpuSystem.cpus.length ∧
     (SystemInfoPoller.get_cpu_info exampleCpuSystem).frequency = 2100 ∧
     (SystemInfoPoller.get_cpu_info exampleCpuSystem).core_count = 4) :=
  ⟨by decide, get_cpu_info_mean_and_global_usage exampleCpuSystem (by decide)⟩

/-- C6: for every disk list whose entries have `available_space ≤
total_space < 2 ^ 64`, the list returned by `get_disk_info` is sorted
by `used_space` in descending order, and every entry satisfies
`used_space = total_space - available_space`. -/
theorem get_disk_info_sorted_and_used (ds : List Disk)
    (hle : ∀ d ∈ ds, d.available_space ≤ d.total_space)
    (hlt : ∀ d ∈ ds, d.total_space < 2 ^ 64) :
    (SystemInfoPoller.get_disk_info ds).disks.Pairwise
      (fun a b => b.used_space ≤ a.used_space) ∧
    ∀ s ∈ (SystemInfoPoller.get_disk_info ds).disks,
      s.used_space = s.total_space - s.available_space := by
  constructor
  · simp only [SystemInfoPoller.get_disk_info]
    exact List.pairwise_reverse.mpr
      (List.sorted_insertionSort storageKeyLE (ds.map Storage.fromDisk))
  · intro s hs
    simp only [SystemInfoPoller.get_disk_info, List.mem_reverse] at hs
    have hs2 :=
      (List.perm_insertionSort storageKeyLE (ds.map Storage.fromDisk)).mem_iff.mp hs
    obtain ⟨d, hd, rfl⟩ := List.mem_map.mp hs2
    have h1 := hle d hd
    have h2 := hlt d hd
    simp only [Storage.fromDisk]
    omega

/-- C6 (witness): the theorem applied at the two-disk sample list. -/
theorem get_disk_info_sorted_and_used_witness :
    (∀ d ∈ sampleDisks, d.available_space ≤ d.total_space) ∧
    (∀ d ∈ sampleDisks, d.total_space < 2 ^ 64) ∧
    ((SystemInfoPoller.get_disk_info sampleDisks).disks.Pairwise
       (fun a b => b.used_space ≤ a.used_space) ∧
     ∀ s ∈ (SystemInfoPoller.get_disk_info sampleDisks).disks,
       s.used_space = s.total_space - s.available_space) :=
  ⟨by decide, by decide,
   get_disk_info_sorted_and_used sampleDisks (by decide) (by decide)⟩

/-- C8: `MenuState::previous` performs exactly the same transition as
`MenuState::next` on every state; it never reverses. -/
theorem menuState_previous_eq_next (s : MenuState) :
    MenuState.previous s = MenuState.next s := by
  cases s <;> rfl

/-- C9: from `OverView`, five applications of `next` return to
`OverView`, and the five states visited are exactly
OverView, CpuMemoryDetails, ProcessDetails, DiskDetails,
NetworkDetails, in the declared order, each appearing once. -/
theorem menu_next_five_cycle :
    MenuState.next (MenuState.next (MenuState.next (MenuState.next
      (MenuState.next MenuState.OverView)))) = MenuState.OverView ∧
    [MenuState.OverView,
     MenuState.next MenuState.OverView,
     MenuState.next (MenuState.next MenuState.OverView),
     MenuState.next (MenuState.next (MenuState.next MenuState.OverView)),
     MenuState.next (MenuState.next (MenuState.next
       (MenuState.next MenuState.OverView)))] =
      [MenuState.OverView, MenuState.CpuMemoryDetails, MenuState.ProcessDetails,
       MenuState.DiskDetails, MenuState.NetworkDetails] ∧
    List.Nodup
      [MenuState.OverView, MenuState.CpuMemoryDetails, MenuState.ProcessDetails,
       MenuState.DiskDetails, MenuState.NetworkDetails] := by
  refine ⟨rfl, rfl, by decide⟩

/-- C10: in `process_update`, when `swap_total > 0` and the physical
`total = 0` the swap sample's division panics (result `none`); when
`swap_total > 0` and `total > 0` the pushed swap series value is the
truncated quotient `swap_used / total` scaled by 100 (the divisor is
the physical total, not `swap_total`); and when `total = 0` (and no
swap, so no panic) the guarded physical-memory sample pushed is 0. -/
theorem process_update_swap_division (s : CpuMemoryDetails)
    (u : CpuMemoryUpdate) :
    (0 < u.memory_stats.swap_total → u.memory_stats.total = 0 →
      CpuMemoryDetails.process_update s u = none) ∧
    (0 < u.memory_stats.swap_total → 0 < u.memory_stats.total →
      (CpuMemoryDetails.process_update s u).map (fun t => t.swap_usage) =
        some (s.swap_usage ++
          [((s.swap_usage.length : ℚ),
            ((u.memory_stats.swap_used / u.memory_stats.total : ℕ) : ℚ) * 100)])) ∧
    (u.memory_stats.total = 0 → u.memory_stats.swap_total = 0 →
      (CpuMemoryDetails.process_update s u).map (fun t => t.memory_usage) =
        some (s.memory_usage ++ [((s.swap_usage.length : ℚ), 0)])) := by
  refine ⟨fun h1 h2 => ?_, fun h1 h2 => ?_, fun h1 h2 => ?_⟩
  · simp [CpuMemoryDetails.process_update, h1, h2]
  · have h3 : u.memory_stats.total ≠ 0 := Nat.pos_iff_ne_zero.mp h2
    simp [CpuMemoryDetails.process_update, h1, h3]
  · simp [CpuMemoryDetails.process_update, h1, h2]

/-- C10 (witness): the theorem applied at the empty component state
with the three concrete updates. -/
theorem process_update_swap_division_witness :
    CpuMemoryDetails.process_update CpuMemoryDetails.empty updDivZero = none ∧
    (CpuMemoryDetails.process_update CpuMemoryDetails.empty updSwapQuot).map
        (fun t => t.swap_usage) =
      some (CpuMemoryDetails.empty.swap_usage ++
        [((CpuMemoryDetails.empty.swap_usage.length : ℚ),
          ((updSwapQuot.memory_stats.swap_used /
              updSwapQuot.memory_stats.total : ℕ) : ℚ) * 100)]) ∧
    (CpuMemoryDetails.process_update CpuMemoryDetails.empty updZeroTotals).map
        (fun t => t.memory_usage) =
      some (CpuMemoryDetails.empty.memory_usage ++
        [((CpuMemoryDetails.empty.swap_usage.length : ℚ), 0)]) :=
  ⟨(process_update_swap_division CpuMemoryDetails.empty updDivZero).1
      (by decide) rfl,
   (process_update_swap_division CpuMemoryDetails.empty updSwapQuot).2.1
      (by decide) (by decide),
   (process_update_swap_division CpuMemoryDetails.empty updZeroTotals).2.2
      rfl rfl⟩

end Ocelo
